import Mathlib

/-!
Verification development for the tablet-peer / operation-driver slice of a
Raft-replicated storage node.  The definitions below are shallow embeddings
of the functions in `src/yb/tablet/tablet_peer.cc` and
`src/yb/tablet/operations/operation_driver.cc`; the theorems settle the
frozen claims about that code.
-/

namespace YBTablet

/-- Status codes of the subset of `yb::Status` that the modeled code
distinguishes.  `Ok` is the success status; every other constructor is a
non-OK status. -/
inductive StatusCode where
  | Ok
  | IllegalState
  | Aborted
  | ServiceUnavailable
  | NotFound
  | TimedOut
  | InvalidArgument
  | Corruption
  deriving DecidableEq, Repr, Fintype

/-- Raft op id: a (term, index) pair, as in `yb::OpId`. -/
structure OpId where
  term : Int
  index : Int
  deriving DecidableEq, Repr

/-- Lexicographic comparison on op ids (term first), as `operator<` on
`yb::OpId`. -/
def OpId.lt (a b : OpId) : Bool :=
  a.term < b.term || (a.term == b.term && a.index < b.index)

/-- `OpId::kUnknownTerm` (= -1 in the source): the sentinel term passed to
`OperationDriver::Init` for follower/replica mode. -/
def kUnknownTerm : Int := -1

/-- Tablet lifecycle states, from `TabletStatePB` as used by
`TabletPeer`. -/
inductive TabletStatePB where
  | NOT_STARTED
  | BOOTSTRAPPING
  | RUNNING
  | FAILED
  | QUIESCING
  | SHUTDOWN
  deriving DecidableEq, Repr, Fintype

/-- Internal operation types, from `OperationType` in
`yb/tablet/operations/operation.h` as used by `tablet_peer.cc`. -/
inductive OperationType where
  | kWrite
  | kAlterSchema
  | kUpdateTransaction
  | kSnapshot
  | kTruncate
  | kEmpty
  deriving DecidableEq, Repr, Fintype

/-- Consensus wire op types, from `consensus::OperationType` as matched in
`tablet_peer.cc`. -/
inductive ConsensusOperationType where
  | UNKNOWN_OP
  | NO_OP
  | WRITE_OP
  | CHANGE_CONFIG_OP
  | ALTER_SCHEMA_OP
  | TRUNCATE_OP
  | SNAPSHOT_OP
  | UPDATE_TRANSACTION_OP
  deriving DecidableEq, Repr, Fintype

/-- `MapOperationTypeToPB` (tablet_peer.cc, anonymous namespace): maps an
internal operation type to the consensus wire enum.  `kEmpty` hits
`LOG(FATAL)`, modeled as `none`. -/
def MapOperationTypeToPB : OperationType → Option ConsensusOperationType
  | .kWrite => some .WRITE_OP
  | .kAlterSchema => some .ALTER_SCHEMA_OP
  | .kUpdateTransaction => some .UPDATE_TRANSACTION_OP
  | .kSnapshot => some .SNAPSHOT_OP
  | .kTruncate => some .TRUNCATE_OP
  | .kEmpty => none

/-- `TabletPeer::CreateOperation`: builds an operation for a replicate
message arriving from the leader; we record the operation type of the
operation built.  `SNAPSHOT_OP`, `UNKNOWN_OP`, `NO_OP` and
`CHANGE_CONFIG_OP` all fall to `FATAL_INVALID_ENUM_VALUE`, modeled as
`none`. -/
def CreateOperation : ConsensusOperationType → Option OperationType
  | .WRITE_OP => some .kWrite
  | .ALTER_SCHEMA_OP => some .kAlterSchema
  | .UPDATE_TRANSACTION_OP => some .kUpdateTransaction
  | .TRUNCATE_OP => some .kTruncate
  | .SNAPSHOT_OP => none
  | .UNKNOWN_OP => none
  | .NO_OP => none
  | .CHANGE_CONFIG_OP => none

/-- State touched by `TabletPeer::SetFailed`: the atomic lifecycle state
and the recorded error. -/
structure PeerFailState where
  state : TabletStatePB
  error : Option StatusCode
  deriving DecidableEq, Repr

/-- `TabletPeer::SetFailed`: records the error, then CAS-loops the state to
`FAILED` unless the current state is `FAILED`, `QUIESCING` or
`SHUTDOWN`. -/
def SetFailed (error : StatusCode) (p : PeerFailState) : PeerFailState :=
  let p1 : PeerFailState := { p with error := some error }
  if p1.state = .FAILED || p1.state = .QUIESCING || p1.state = .SHUTDOWN then
    p1
  else
    { p1 with state := .FAILED }

/-- `OperationDriver::ReplicationState`. -/
inductive ReplicationState where
  | NOT_REPLICATING
  | REPLICATING
  | REPLICATED
  | REPLICATION_FAILED
  deriving DecidableEq, Repr, Fintype

/-- `OperationDriver::PrepareState`. -/
inductive PrepareState where
  | NOT_PREPARED
  | PREPARED
  deriving DecidableEq, Repr, Fintype

/-- Observable driver state: the two axes guarded by the driver spinlock,
plus instrumentation of the externally visible effects (calls into the
operation and the tracker) and whether a `CHECK`/`LOG(FATAL)` fired
(`crashed`; a crashed process takes no further steps). -/
structure DriverData where
  /-- `operation_ != nullptr` (false for the `Empty` safe-time driver). -/
  hasOp : Bool
  replicationState : ReplicationState
  prepareState : PrepareState
  /-- leader terms passed to `operation_->Replicated(leader_term)`, in
  call order. -/
  replicatedCalls : List Int
  /-- number of calls to `operation_->Aborted(status)`. -/
  abortedCalls : Nat
  /-- whether `operation_tracker_->Release(this, ...)` has been called. -/
  released : Bool
  crashed : Bool
  deriving DecidableEq, Repr

/-- Body of the `switch (repl_state_copy)` in
`OperationDriver::HandleFailure`, acting on a previously snapshotted copy
of `replication_state_`: abort-and-release for `NOT_REPLICATING` /
`REPLICATION_FAILED`, `LOG(FATAL)` for `REPLICATING` / `REPLICATED`. -/
def hfAct (copy : ReplicationState) (d : DriverData) : DriverData :=
  match copy with
  | .NOT_REPLICATING | .REPLICATION_FAILED =>
      { d with abortedCalls := d.abortedCalls + 1, released := true }
  | .REPLICATING | .REPLICATED => { d with crashed := true }

/-- `OperationDriver::HandleFailure(status)` as one atomic call: snapshot
`replication_state_` under the lock, `CHECK(!status.ok())`, then act on the
snapshot.  `statusOk` is `status.ok()`. -/
def HandleFailure (statusOk : Bool) (d : DriverData) : DriverData :=
  if statusOk then { d with crashed := true }
  else hfAct d.replicationState d

/-- `OperationDriver::Abort(status)` as one atomic call:
`CHECK(!status.ok())`, snapshot `replication_state_`, and call
`HandleFailure` only when the snapshot is `NOT_REPLICATING`. -/
def Abort (statusOk : Bool) (d : DriverData) : DriverData :=
  if statusOk then { d with crashed := true }
  else if d.replicationState = ReplicationState.NOT_REPLICATING then
    HandleFailure false d
  else d

/-- Driver state assembled by `OperationDriver::Init`. -/
structure InitDriverState where
  hasOp : Bool
  /-- `op_id_copy_` after `Init`; `none` models the "invalid" value that
  `GetOpId` reads before publication. -/
  opIdCopy : Option OpId
  replicationState : ReplicationState
  /-- leader mode: a consensus round was created, bound to the term, and
  the append callback installed. -/
  consensusRoundBound : Bool
  deriving DecidableEq, Repr

/-- Result of `OperationDriver::Init`, with the externally visible
effects. -/
structure InitResult where
  d : InitDriverState
  result : StatusCode
  /-- whether `*operation = std::move(operation_)` ran (ownership moved
  back to the caller). -/
  operationReturnedToCaller : Bool
  /-- whether `operation_->state()->AddedToFollower()` ran. -/
  addedToFollowerCalled : Bool
  deriving DecidableEq, Repr

/-- `OperationDriver::Init(operation, term)`.  `operation` models the
caller's `std::unique_ptr<Operation>*`: `none` is a null pointer (the
`SetPropagatedSafeTime` path), `some op` a pointer to an operation whose
state carries op id `op`.  `trackerAdd` is the status returned by
`OperationTracker::Add` (the tracker is outside this slice; its admission
verdict is an input).  `hasConsensus` models the `consensus_` null check
of the leader branch. -/
def Init (operation : Option OpId) (term : Int) (trackerAdd : StatusCode)
    (hasConsensus : Bool) : InitResult :=
  -- operation_ = std::move(*operation) when the pointer is non-null
  let opOwned : Option OpId := operation
  let follower : Bool := term == kUnknownTerm
  -- follower mode: publish op_id_copy_ (release-store) and set
  -- replication_state_ = REPLICATING; leader mode: build the round
  let opIdCopy : Option OpId := if follower then opOwned else none
  let replState : ReplicationState :=
    if follower then .REPLICATING else .NOT_REPLICATING
  let roundBound : Bool := if follower then false else hasConsensus
  -- auto result = operation_tracker_->Add(this)
  let result := trackerAdd
  -- if (!result.ok() && operation) *operation = std::move(operation_)
  let movedBack : Bool :=
    if result = StatusCode.Ok then false else operation.isSome
  let opOwned2 : Option OpId := if movedBack then none else opOwned
  -- if (term == kUnknownTerm && operation_) AddedToFollower()
  let addedToFollower : Bool := follower && opOwned2.isSome
  { d := { hasOp := opOwned2.isSome, opIdCopy := opIdCopy,
           replicationState := replState, consensusRoundBound := roundBound },
    result := result, operationReturnedToCaller := movedBack,
    addedToFollowerCalled := addedToFollower }

/-- `OperationDriver::GetOpId`: acquire-load of `op_id_copy_`. -/
def GetOpId (d : InitDriverState) : Option OpId := d.opIdCopy

/-! ### Interleaving machine for one driver

The driver's methods run concurrently: `PrepareAndStartTask` on the
preparer's worker, `ReplicationFinished` on the Raft callback thread, and
`Abort` from arbitrary external threads.  We model an execution as an
interleaving of atomic micro-steps; every section that holds the driver
spinlock is one micro-step, and code between lock sections is a separate
micro-step, so each real interleaving of critical sections is a run of
this machine.  `HandleConsensusAppend` needs no step of its own: it only
publishes `op_id_copy_`, notifies `AddedToLeader` and runs
`StartOperation` (which on the leader, where an operation is always
present, has no effect on the fields modeled here); it touches neither
state axis nor any modeled effect. -/

/-- Progress of one in-flight `HandleFailure` call: first the lock section
snapshotting `replication_state_`, then the switch on the snapshot. -/
inductive HFPhase where
  | read
  | act (copy : ReplicationState)
  deriving DecidableEq, Repr

/-- Program counter of the prepare-side thread
(`ExecuteAsync` / `PrepareAndStartTask`). -/
inductive PrepThread where
  /-- `preparer_->Submit(this)` failed; `HandleFailure(s)` runs on the
  submitting thread. -/
  | submitFailed (hf : HFPhase)
  /-- `PrepareAndStartTask` is queued; `operation_->Prepare()` will return
  `prepareOk`. -/
  | toPrepare (prepareOk : Bool)
  /-- `Prepare()` returned an error; `HandleFailure(prepare_status)`
  runs. -/
  | prepFailed (hf : HFPhase)
  /-- about to take the first lock section of `PrepareAndStart` (CHECK
  `prepare_state_ == NOT_PREPARED`, snapshot `replication_state_`). -/
  | preLock1
  /-- between the two lock sections, holding the snapshot; runs
  `StartOperation` when the snapshot shows replication already began. -/
  | between (replCopy : ReplicationState)
  /-- about to take the second lock section (set `PREPARED`, and
  `NOT_REPLICATING → REPLICATING`). -/
  | preLock2
  | done
  deriving DecidableEq, Repr

/-- Program counter of the consensus callback thread
(`ReplicationFinished` / `ApplyTask`). -/
inductive ReplThread where
  /-- no consensus round delivers a callback to this driver (the `Empty`
  safe-time driver). -/
  | absent
  /-- consensus will call `ReplicationFinished(status, leader_term, ...)`
  with `status.ok() = statusOk`. -/
  | notFired (statusOk : Bool) (leaderTerm : Int)
  /-- the lock section ran: the replicate axis was set and
  `prepare_state_` snapshotted into `prepCopy`. -/
  | afterLock (statusOk : Bool) (leaderTerm : Int) (prepCopy : PrepareState)
  /-- the defensive poll loop waiting for `prepare_state_ = PREPARED`. -/
  | waitLoop (statusOk : Bool) (leaderTerm : Int)
  /-- replication failed; `HandleFailure(status)` runs. -/
  | hf (hf : HFPhase)
  | done
  deriving DecidableEq, Repr

/-- A configuration: the shared driver state, the two method threads, the
in-flight `HandleFailure` calls spawned by external `Abort`s, and whether
`operation_->Replicated` will succeed (`applyOk`; failure is
`LOG(FATAL)`). -/
structure Config where
  d : DriverData
  prep : PrepThread
  repl : ReplThread
  abortHF : List HFPhase
  applyOk : Bool
  deriving DecidableEq, Repr

/-- `OperationDriver::ApplyTask(leader_term, applied_op_ids)`: calls
`operation_->Replicated(leader_term)`, `LOG(FATAL)` if it fails, then
`operation_tracker_->Release`. -/
def applyTask (term : Int) (c : Config) : Config :=
  let d1 := { c.d with replicatedCalls := c.d.replicatedCalls ++ [term] }
  if c.applyOk then
    { c with d := { d1 with released := true }, repl := .done }
  else
    { c with d := { d1 with crashed := true }, repl := .done }

/-- One micro-step of the prepare-side thread. -/
def prepStep (c : Config) : Option Config :=
  match c.prep with
  | .submitFailed .read =>
      some { c with prep := .submitFailed (.act c.d.replicationState) }
  | .submitFailed (.act copy) =>
      some { c with d := hfAct copy c.d, prep := .done }
  | .toPrepare ok =>
      -- PrepareAndStart: if (operation_) RETURN_NOT_OK(operation_->Prepare())
      if c.d.hasOp && !ok then some { c with prep := .prepFailed .read }
      else some { c with prep := .preLock1 }
  | .prepFailed .read =>
      some { c with prep := .prepFailed (.act c.d.replicationState) }
  | .prepFailed (.act copy) =>
      some { c with d := hfAct copy c.d, prep := .done }
  | .preLock1 =>
      -- CHECK_EQ(prepare_state_, NOT_PREPARED); snapshot replication_state_
      if c.d.prepareState = PrepareState.NOT_PREPARED then
        some { c with prep := .between c.d.replicationState }
      else some { c with d := { c.d with crashed := true } }
  | .between replCopy =>
      if replCopy = ReplicationState.NOT_REPLICATING then
        some { c with prep := .preLock2 }
      else
        -- StartOperation(): push propagated safe time to MVCC (external);
        -- with no operation, Release and return early
        if c.d.hasOp then some { c with prep := .preLock2 }
        else some { c with d := { c.d with released := true }, prep := .done }
  | .preLock2 =>
      -- CHECK_EQ(prepare_state_, NOT_PREPARED); prepare_state_ = PREPARED;
      -- if NOT_REPLICATING then REPLICATING
      if c.d.prepareState = PrepareState.NOT_PREPARED then
        let rs := if c.d.replicationState = ReplicationState.NOT_REPLICATING
          then ReplicationState.REPLICATING else c.d.replicationState
        some { c with
          d := { c.d with prepareState := .PREPARED, replicationState := rs },
          prep := .done }
      else some { c with d := { c.d with crashed := true } }
  | .done => none

/-- One micro-step of the consensus callback thread. -/
def replStep (c : Config) : Option Config :=
  match c.repl with
  | .absent => none
  | .done => none
  | .notFired ok term =>
      -- ReplicationFinished lock section
      if c.d.replicationState = ReplicationState.REPLICATION_FAILED then
        -- LOG_IF(DFATAL, status.ok()); return
        some { c with repl := .done }
      else if c.d.replicationState = ReplicationState.REPLICATING then
        let rs := if ok then ReplicationState.REPLICATED
          else ReplicationState.REPLICATION_FAILED
        some { c with d := { c.d with replicationState := rs },
                      repl := .afterLock ok term c.d.prepareState }
      else
        -- CHECK_EQ(replication_state_, REPLICATING)
        some { c with d := { c.d with crashed := true } }
  | .afterLock ok term prepCopy =>
      if prepCopy = PrepareState.PREPARED then
        if ok then some (applyTask term c) else some { c with repl := .hf .read }
      else
        -- LOG(DFATAL) then the defensive poll loop
        some { c with repl := .waitLoop ok term }
  | .waitLoop ok term =>
      if c.d.prepareState = PrepareState.PREPARED then
        if ok then some (applyTask term c) else some { c with repl := .hf .read }
      else some c
  | .hf .read => some { c with repl := .hf (.act c.d.replicationState) }
  | .hf (.act copy) => some { c with d := hfAct copy c.d, repl := .done }

/-- `OperationDriver::Abort` from an external thread: snapshot the
replicate axis; only a `NOT_REPLICATING` snapshot spawns a
`HandleFailure` call (otherwise the method is a no-op). -/
def abortBeginStep (c : Config) : Option Config :=
  if c.d.replicationState = ReplicationState.NOT_REPLICATING then
    some { c with abortHF := HFPhase.read :: c.abortHF }
  else some c

/-- Advance the `i`-th in-flight abort-spawned `HandleFailure`. -/
def abortAdvStep (i : Nat) (c : Config) : Option Config :=
  match c.abortHF.get? i with
  | none => none
  | some .read =>
      some { c with abortHF := c.abortHF.set i (.act c.d.replicationState) }
  | some (.act copy) =>
      some { c with d := hfAct copy c.d, abortHF := c.abortHF.eraseIdx i }

/-- Scheduler labels: which thread takes the next micro-step. -/
inductive Label where
  | prep
  | repl
  | abortBegin
  | abortAdv (i : Nat)
  deriving DecidableEq, Repr

/-- The labeled step function.  A crashed process takes no steps. -/
def stepL (c : Config) (l : Label) : Option Config :=
  if c.d.crashed then none
  else
    match l with
    | .prep => prepStep c
    | .repl => replStep c
    | .abortBegin => abortBeginStep c
    | .abortAdv i => abortAdvStep i c

/-- One machine step under some scheduling choice. -/
def MStep (a b : Config) : Prop := ∃ l, stepL a l = some b

/-- Reachability in the machine. -/
def Reach (a b : Config) : Prop := Relation.ReflTransGen MStep a b

/-- Configurations right after a successful `Init` plus `ExecuteAsync`:
both axes at their initial values, no effects yet, the prepare thread
either queued (`Prepare` will succeed or fail) or already in the
submit-failure path, and the consensus thread either absent or set to
deliver one `ReplicationFinished`.  Leader drivers start
`NOT_REPLICATING`, follower drivers `REPLICATING` (`Init`). -/
def InitConfig (c : Config) : Prop :=
  c.d.prepareState = PrepareState.NOT_PREPARED ∧
  c.d.replicatedCalls = [] ∧
  c.d.abortedCalls = 0 ∧
  c.d.released = false ∧
  c.d.crashed = false ∧
  c.abortHF = [] ∧
  (c.d.replicationState = ReplicationState.NOT_REPLICATING ∨
   c.d.replicationState = ReplicationState.REPLICATING) ∧
  (match c.prep with
   | .toPrepare _ => True
   | .submitFailed .read => True
   | _ => False) ∧
  (match c.repl with
   | .absent => True
   | .notFired _ _ => True
   | _ => False)

/-- `hfAct` touches only the effect fields: both state axes and the
`Replicated` call log are unchanged. -/
lemma hfAct_preserves (copy : ReplicationState) (d : DriverData) :
    (hfAct copy d).replicationState = d.replicationState ∧
    (hfAct copy d).prepareState = d.prepareState ∧
    (hfAct copy d).replicatedCalls = d.replicatedCalls ∧
    (hfAct copy d).hasOp = d.hasOp := by
  cases copy <;> simp [hfAct]

/-- A prepare-side micro-step leaves the consensus thread, the call log,
and the abort pool alone; it never takes the replicate axis out of a
non-`NOT_REPLICATING` state and never unsets `PREPARED`. -/
lemma prepStep_effects {c c1 : Config} (h : prepStep c = some c1) :
    c1.repl = c.repl ∧
    c1.d.replicatedCalls = c.d.replicatedCalls ∧
    c1.abortHF = c.abortHF ∧
    (c.d.replicationState ≠ ReplicationState.NOT_REPLICATING →
      c1.d.replicationState = c.d.replicationState) ∧
    (c.d.prepareState = PrepareState.PREPARED →
      c1.d.prepareState = PrepareState.PREPARED) := by
  cases hp : c.prep with
  | submitFailed hf =>
      cases hf with
      | read =>
          simp only [prepStep, hp, Option.some.injEq] at h
          subst h; simp
      | act copy =>
          simp only [prepStep, hp, Option.some.injEq] at h
          subst h
          have := hfAct_preserves copy c.d
          simp [this.1, this.2.1, this.2.2.1]
  | toPrepare ok =>
      simp only [prepStep, hp] at h
      split at h <;> (simp only [Option.some.injEq] at h; subst h; simp)
  | prepFailed hf =>
      cases hf with
      | read =>
          simp only [prepStep, hp, Option.some.injEq] at h
          subst h; simp
      | act copy =>
          simp only [prepStep, hp, Option.some.injEq] at h
          subst h
          have := hfAct_preserves copy c.d
          simp [this.1, this.2.1, this.2.2.1]
  | preLock1 =>
      simp only [prepStep, hp] at h
      split at h <;> (simp only [Option.some.injEq] at h; subst h; simp)
  | between replCopy =>
      simp only [prepStep, hp] at h
      split at h
      · simp only [Option.some.injEq] at h; subst h; simp
      · split at h <;> (simp only [Option.some.injEq] at h; subst h; simp)
  | preLock2 =>
      simp only [prepStep, hp] at h
      split at h
      · simp only [Option.some.injEq] at h
        subst h
        refine ⟨rfl, rfl, rfl, ?_, fun _ => rfl⟩
        intro hne
        simp [hne]
      · simp only [Option.some.injEq] at h; subst h; simp
  | done => simp [prepStep, hp] at h

/-- Beginning an external `Abort` never changes the driver data or the
method threads. -/
lemma abortBegin_effects {c c1 : Config} (h : abortBeginStep c = some c1) :
    c1.d = c.d ∧ c1.repl = c.repl ∧ c1.prep = c.prep := by
  unfold abortBeginStep at h
  split at h <;> (simp only [Option.some.injEq] at h; subst h; exact ⟨rfl, rfl, rfl⟩)

/-- Advancing an abort-spawned `HandleFailure` leaves the method threads,
the call log and both state axes alone. -/
lemma abortAdv_effects {i : Nat} {c c1 : Config} (h : abortAdvStep i c = some c1) :
    c1.repl = c.repl ∧ c1.prep = c.prep ∧
    c1.d.replicatedCalls = c.d.replicatedCalls ∧
    c1.d.replicationState = c.d.replicationState ∧
    c1.d.prepareState = c.d.prepareState := by
  revert h
  unfold abortAdvStep
  cases hg : c.abortHF.get? i with
  | none => intro h; exact absurd h (by simp)
  | some ph =>
      cases ph with
      | read =>
          intro h
          simp only [Option.some.injEq] at h
          subst h; simp
      | act copy =>
          intro h
          simp only [Option.some.injEq] at h
          subst h
          have := hfAct_preserves copy c.d
          simp [this.1, this.2.1, this.2.2.1]

/-- The inductive invariant behind the single-apply property: the
consensus thread's snapshot agrees with the shared state (the replicate
axis is set before `afterLock`/`waitLoop` is entered, a `PREPARED`
snapshot means the prepare axis really is `PREPARED` — it is never unset),
and `operation_->Replicated` has been called exactly on the completed-apply
path. -/
def ReplInv (c : Config) : Prop :=
  (∀ ok t pc, c.repl = ReplThread.afterLock ok t pc →
      c.d.replicationState =
        (if ok then ReplicationState.REPLICATED
         else ReplicationState.REPLICATION_FAILED) ∧
      (pc = PrepareState.PREPARED →
        c.d.prepareState = PrepareState.PREPARED)) ∧
  (∀ ok t, c.repl = ReplThread.waitLoop ok t →
      c.d.replicationState =
        (if ok then ReplicationState.REPLICATED
         else ReplicationState.REPLICATION_FAILED)) ∧
  (c.repl = ReplThread.done → c.d.replicatedCalls.length ≤ 1) ∧
  (c.repl ≠ ReplThread.done → c.d.replicatedCalls = [])

/-- Any step that leaves the consensus thread, the call log, the
non-initial replicate axis and the `PREPARED` flag alone preserves
`ReplInv`. -/
lemma replInv_of_untouched {c c1 : Config}
    (hrepl : c1.repl = c.repl)
    (hcalls : c1.d.replicatedCalls = c.d.replicatedCalls)
    (hrs : c.d.replicationState ≠ ReplicationState.NOT_REPLICATING →
      c1.d.replicationState = c.d.replicationState)
    (hps : c.d.prepareState = PrepareState.PREPARED →
      c1.d.prepareState = PrepareState.PREPARED)
    (inv : ReplInv c) : ReplInv c1 := by
  obtain ⟨iAfter, iWait, iDone, iOther⟩ := inv
  refine ⟨?_, ?_, ?_, ?_⟩
  · intro ok t pc heq
    rw [hrepl] at heq
    obtain ⟨j1, j2⟩ := iAfter ok t pc heq
    have hne : c.d.replicationState ≠ ReplicationState.NOT_REPLICATING := by
      rw [j1]; cases ok <;> simp
    exact ⟨by rw [hrs hne, j1], fun hpc => hps (j2 hpc)⟩
  · intro ok t heq
    rw [hrepl] at heq
    have j1 := iWait ok t heq
    have hne : c.d.replicationState ≠ ReplicationState.NOT_REPLICATING := by
      rw [j1]; cases ok <;> simp
    rw [hrs hne, j1]
  · intro heq
    rw [hrepl] at heq
    rw [hcalls]
    exact iDone heq
  · intro heq
    rw [hrepl] at heq
    rw [hcalls]
    exact iOther heq

/-- A consensus-thread micro-step preserves `ReplInv`. -/
lemma replInv_repl {c c1 : Config} (h : replStep c = some c1)
    (inv : ReplInv c) : ReplInv c1 := by
  obtain ⟨iAfter, iWait, iDone, iOther⟩ := inv
  cases hr : c.repl with
  | absent => simp [replStep, hr] at h
  | done => simp [replStep, hr] at h
  | notFired ok t =>
      have hcalls : c.d.replicatedCalls = [] := iOther (by rw [hr]; simp)
      simp only [replStep, hr] at h
      split at h
      · -- already REPLICATION_FAILED: early return
        simp only [Option.some.injEq] at h
        subst h
        refine ⟨?_, ?_, ?_, ?_⟩
        · intro _ _ _ heq; simp at heq
        · intro _ _ heq; simp at heq
        · intro _; simp [hcalls]
        · intro heq; simp at heq
      · split at h
        · -- REPLICATING: set the axis, snapshot prepare_state_
          simp only [Option.some.injEq] at h
          subst h
          refine ⟨?_, ?_, ?_, ?_⟩
          · intro ok1 t1 pc1 heq
            simp only [ReplThread.afterLock.injEq] at heq
            obtain ⟨h1, _, h3⟩ := heq
            subst h1; subst h3
            exact ⟨rfl, fun hpc => hpc⟩
          · intro _ _ heq; simp at heq
          · intro heq; simp at heq
          · intro _; exact hcalls
        · -- CHECK_EQ(replication_state_, REPLICATING) fails: crash
          simp only [Option.some.injEq] at h
          subst h
          refine ⟨?_, ?_, ?_, ?_⟩
          · intro _ _ _ heq; simp at heq
          · intro _ _ heq; simp at heq
          · intro heq; simp at heq
          · intro _; exact hcalls
  | afterLock ok t pc =>
      have hcalls : c.d.replicatedCalls = [] := iOther (by rw [hr]; simp)
      obtain ⟨j1, j2⟩ := iAfter ok t pc hr
      simp only [replStep, hr] at h
      split at h
      · rename_i hpc
        split at h
        · -- apply
          rename_i hok
          simp only [applyTask] at h
          split at h <;>
            (simp only [Option.some.injEq] at h
             subst h
             refine ⟨?_, ?_, ?_, ?_⟩
             · intro _ _ _ heq; simp at heq
             · intro _ _ heq; simp at heq
             · intro _; simp [hcalls]
             · intro heq; simp at heq)
        · -- replication failed: HandleFailure
          simp only [Option.some.injEq] at h
          subst h
          refine ⟨?_, ?_, ?_, ?_⟩
          · intro _ _ _ heq; simp at heq
          · intro _ _ heq; simp at heq
          · intro heq; simp at heq
          · intro _; exact hcalls
      · -- snapshot not PREPARED: enter the poll loop
        simp only [Option.some.injEq] at h
        subst h
        refine ⟨?_, ?_, ?_, ?_⟩
        · intro _ _ _ heq; simp at heq
        · intro ok1 t1 heq
          simp only [ReplThread.waitLoop.injEq] at heq
          obtain ⟨h1, _⟩ := heq
          subst h1
          exact j1
        · intro heq; simp at heq
        · intro _; exact hcalls
  | waitLoop ok t =>
      have hcalls : c.d.replicatedCalls = [] := iOther (by rw [hr]; simp)
      have j1 := iWait ok t hr
      simp only [replStep, hr] at h
      split at h
      · rename_i hps
        split at h
        · rename_i hok
          simp only [applyTask] at h
          split at h <;>
            (simp only [Option.some.injEq] at h
             subst h
             refine ⟨?_, ?_, ?_, ?_⟩
             · intro _ _ _ heq; simp at heq
             · intro _ _ heq; simp at heq
             · intro _; simp [hcalls]
             · intro heq; simp at heq)
        · simp only [Option.some.injEq] at h
          subst h
          refine ⟨?_, ?_, ?_, ?_⟩
          · intro _ _ _ heq; simp at heq
          · intro _ _ heq; simp at heq
          · intro heq; simp at heq
          · intro _; exact hcalls
      · -- keep polling: configuration unchanged
        simp only [Option.some.injEq] at h
        subst h
        exact ⟨iAfter, iWait, iDone, iOther⟩
  | hf ph =>
      have hcalls : c.d.replicatedCalls = [] := iOther (by rw [hr]; simp)
      cases ph with
      | read =>
          simp only [replStep, hr, Option.some.injEq] at h
          subst h
          refine ⟨?_, ?_, ?_, ?_⟩
          · intro _ _ _ heq; simp at heq
          · intro _ _ heq; simp at heq
          · intro heq; simp at heq
          · intro _; exact hcalls
      | act copy =>
          simp only [replStep, hr, Option.some.injEq] at h
          subst h
          have hp := hfAct_preserves copy c.d
          refine ⟨?_, ?_, ?_, ?_⟩
          · intro _ _ _ heq; simp at heq
          · intro _ _ heq; simp at heq
          · intro _; simp [hp.2.2.1, hcalls]
          · intro heq; simp at heq

/-- Every machine step preserves `ReplInv`. -/
lemma replInv_step {c c1 : Config} {l : Label} (h : stepL c l = some c1)
    (inv : ReplInv c) : ReplInv c1 := by
  unfold stepL at h
  split at h
  · exact absurd h (by simp)
  · cases l with
    | prep =>
        obtain ⟨h1, h2, _, h4, h5⟩ := prepStep_effects h
        exact replInv_of_untouched h1 h2 h4 h5 inv
    | repl => exact replInv_repl h inv
    | abortBegin =>
        obtain ⟨h1, h2, _⟩ := abortBegin_effects h
        exact replInv_of_untouched h2 (by rw [h1]) (fun _ => by rw [h1])
          (fun _ => by rw [h1]; assumption) inv
    | abortAdv i =>
        obtain ⟨h1, _, h3, h4, h5⟩ := abortAdv_effects h
        exact replInv_of_untouched h1 h3 (fun _ => h4)
          (fun hp => by rw [h5]; exact hp) inv

/-- `ReplInv` holds right after `Init` plus `ExecuteAsync`. -/
lemma replInv_init {c : Config} (h : InitConfig c) : ReplInv c := by
  obtain ⟨_, hcalls, _, _, _, _, _, _, hrepl⟩ := h
  revert hrepl
  cases hr : c.repl <;> intro hrepl
  · exact ⟨by intro _ _ _ heq; rw [hr] at heq; exact absurd heq (by simp),
           by intro _ _ heq; rw [hr] at heq; exact absurd heq (by simp),
           by intro heq; rw [hr] at heq; exact absurd heq (by simp),
           by intro _; exact hcalls⟩
  · exact ⟨by intro _ _ _ heq; rw [hr] at heq; exact absurd heq (by simp),
           by intro _ _ heq; rw [hr] at heq; exact absurd heq (by simp),
           by intro heq; rw [hr] at heq; exact absurd heq (by simp),
           by intro _; exact hcalls⟩
  · exact absurd hrepl (by simp)
  · exact absurd hrepl (by simp)
  · exact absurd hrepl (by simp)
  · exact absurd hrepl (by simp)

/-- `ReplInv` holds at every reachable configuration. -/
lemma replInv_reach {c0 c : Config} (h0 : InitConfig c0) (h : Reach c0 c) :
    ReplInv c := by
  induction h with
  | refl => exact replInv_init h0
  | tail _ hstep ih =>
      obtain ⟨l, hl⟩ := hstep
      exact replInv_step hl ih

/-- Every machine step preserves `REPLICATION_FAILED` on the replicate
axis: no transition out of it exists (in particular none to
`REPLICATED`). -/
lemma replicationFailed_step {c c1 : Config} {l : Label} (h : stepL c l = some c1)
    (hrf : c.d.replicationState = ReplicationState.REPLICATION_FAILED) :
    c1.d.replicationState = ReplicationState.REPLICATION_FAILED := by
  unfold stepL at h
  split at h
  · exact absurd h (by simp)
  · cases l with
    | prep =>
        obtain ⟨_, _, _, h4, _⟩ := prepStep_effects h
        rw [h4 (by rw [hrf]; simp), hrf]
    | abortBegin =>
        obtain ⟨h1, _, _⟩ := abortBegin_effects h
        rw [h1, hrf]
    | abortAdv i =>
        obtain ⟨_, _, _, h4, _⟩ := abortAdv_effects h
        rw [h4, hrf]
    | repl =>
        cases hr : c.repl with
        | absent => simp [replStep, hr] at h
        | done => simp [replStep, hr] at h
        | notFired ok t =>
            simp only [replStep, hr, hrf, reduceIte] at h
            simp only [Option.some.injEq] at h
            subst h
            exact hrf
        | afterLock ok t pc =>
            simp only [replStep, hr] at h
            split at h
            · split at h
              · simp only [applyTask] at h
                split at h <;>
                  (simp only [Option.some.injEq] at h; subst h; exact hrf)
              · simp only [Option.some.injEq] at h; subst h; exact hrf
            · simp only [Option.some.injEq] at h; subst h; exact hrf
        | waitLoop ok t =>
            simp only [replStep, hr] at h
            split at h
            · split at h
              · simp only [applyTask] at h
                split at h <;>
                  (simp only [Option.some.injEq] at h; subst h; exact hrf)
              · simp only [Option.some.injEq] at h; subst h; exact hrf
            · simp only [Option.some.injEq] at h; subst h; exact hrf
        | hf ph =>
            cases ph with
            | read =>
                simp only [replStep, hr, Option.some.injEq] at h
                subst h; exact hrf
            | act copy =>
                simp only [replStep, hr, Option.some.injEq] at h
                subst h
                rw [(hfAct_preserves copy c.d).1, hrf]

/-- Claim C1: along every execution of a driver from its post-`Init`
configuration, `operation_->Replicated(leader_term)` is invoked at most
once, and any step that invokes it does so from (and leaves) a
configuration with `prepare_state_ = PREPARED` and
`replication_state_ = REPLICATED`. -/
theorem replicated_single_apply :
    ∀ c0 c : Config, InitConfig c0 → Reach c0 c →
      c.d.replicatedCalls.length ≤ 1 ∧
      (∀ l c1, stepL c l = some c1 →
        c.d.replicatedCalls.length < c1.d.replicatedCalls.length →
        c.d.prepareState = PrepareState.PREPARED ∧
        c.d.replicationState = ReplicationState.REPLICATED ∧
        c1.d.prepareState = PrepareState.PREPARED ∧
        c1.d.replicationState = ReplicationState.REPLICATED) := by
  intro c0 c h0 hreach
  have inv := replInv_reach h0 hreach
  constructor
  · rcases hdone : c.repl with hh | hh | hh | hh | hh | hh
    · rw [inv.2.2.2 (by rw [hdone]; simp)]; simp
    · rw [inv.2.2.2 (by rw [hdone]; simp)]; simp
    · rw [inv.2.2.2 (by rw [hdone]; simp)]; simp
    · rw [inv.2.2.2 (by rw [hdone]; simp)]; simp
    · rw [inv.2.2.2 (by rw [hdone]; simp)]; simp
    · exact inv.2.2.1 hdone
  · intro l c1 hs hlt
    unfold stepL at hs
    split at hs
    · exact absurd hs (by simp)
    · cases l with
      | prep =>
          obtain ⟨_, h2, _, _, _⟩ := prepStep_effects hs
          rw [h2] at hlt
          exact absurd hlt (lt_irrefl _)
      | abortBegin =>
          obtain ⟨h1, _, _⟩ := abortBegin_effects hs
          rw [h1] at hlt
          exact absurd hlt (lt_irrefl _)
      | abortAdv i =>
          obtain ⟨_, _, h3, _, _⟩ := abortAdv_effects hs
          rw [h3] at hlt
          exact absurd hlt (lt_irrefl _)
      | repl =>
          cases hr : c.repl with
          | absent => simp [replStep, hr] at hs
          | done => simp [replStep, hr] at hs
          | notFired ok t =>
              simp only [replStep, hr] at hs
              split at hs
              · simp only [Option.some.injEq] at hs; subst hs
                exact absurd hlt (lt_irrefl _)
              · split at hs
                · simp only [Option.some.injEq] at hs; subst hs
                  exact absurd hlt (lt_irrefl _)
                · simp only [Option.some.injEq] at hs; subst hs
                  exact absurd hlt (lt_irrefl _)
          | afterLock ok t pc =>
              obtain ⟨j1, j2⟩ := inv.1 ok t pc hr
              simp only [replStep, hr] at hs
              split at hs
              · rename_i hpc
                split at hs
                · rename_i hok
                  subst hok
                  simp only [if_pos rfl] at j1
                  have hps := j2 hpc
                  simp only [applyTask] at hs
                  split at hs <;>
                    (simp only [Option.some.injEq] at hs
                     subst hs
                     exact ⟨hps, j1, hps, j1⟩)
                · simp only [Option.some.injEq] at hs; subst hs
                  exact absurd hlt (lt_irrefl _)
              · simp only [Option.some.injEq] at hs; subst hs
                exact absurd hlt (lt_irrefl _)
          | waitLoop ok t =>
              have j1 := inv.2.1 ok t hr
              simp only [replStep, hr] at hs
              split at hs
              · rename_i hps
                split at hs
                · rename_i hok
                  subst hok
                  simp only [if_pos rfl] at j1
                  simp only [applyTask] at hs
                  split at hs <;>
                    (simp only [Option.some.injEq] at hs
                     subst hs
                     exact ⟨hps, j1, hps, j1⟩)
                · simp only [Option.some.injEq] at hs; subst hs
                  exact absurd hlt (lt_irrefl _)
              · simp only [Option.some.injEq] at hs; subst hs
                exact absurd hlt (lt_irrefl _)
          | hf ph =>
              cases ph with
              | read =>
                  simp only [replStep, hr, Option.some.injEq] at hs
                  subst hs
                  exact absurd hlt (lt_irrefl _)
              | act copy =>
                  simp only [replStep, hr, Option.some.injEq] at hs
                  subst hs
                  rw [(hfAct_preserves copy c.d).2.2.1] at hlt
                  exact absurd hlt (lt_irrefl _)

/-- A follower-mode driver configuration right after `Init` and
`ExecuteAsync`: prepare queued and one pending consensus callback. -/
def followerCfg : Config :=
  { d := { hasOp := true, replicationState := .REPLICATING,
           prepareState := .NOT_PREPARED, replicatedCalls := [],
           abortedCalls := 0, released := false, crashed := false },
    prep := .toPrepare true, repl := .notFired true 5, abortHF := [],
    applyOk := true }

theorem replicated_single_apply_witness :
    InitConfig followerCfg ∧
    (followerCfg.d.replicatedCalls.length ≤ 1 ∧
      (∀ l c1, stepL followerCfg l = some c1 →
        followerCfg.d.replicatedCalls.length < c1.d.replicatedCalls.length →
        followerCfg.d.prepareState = PrepareState.PREPARED ∧
        followerCfg.d.replicationState = ReplicationState.REPLICATED ∧
        c1.d.prepareState = PrepareState.PREPARED ∧
        c1.d.replicationState = ReplicationState.REPLICATED)) :=
  ⟨⟨rfl, rfl, rfl, rfl, rfl, rfl, Or.inr rfl, trivial, trivial⟩,
   replicated_single_apply followerCfg followerCfg
     ⟨rfl, rfl, rfl, rfl, rfl, rfl, Or.inr rfl, trivial, trivial⟩
     Relation.ReflTransGen.refl⟩

/-- Claim C4: `REPLICATION_FAILED` is terminal for the replicate axis: a
`ReplicationFinished` call arriving in that state retires the callback
thread and changes nothing else (no apply, no failure path, both axes
untouched), and no reachable later configuration ever shows
`REPLICATED`. -/
theorem replication_failed_terminal :
    ∀ c : Config,
      c.d.replicationState = ReplicationState.REPLICATION_FAILED →
      (∀ ok t, c.repl = ReplThread.notFired ok t → c.d.crashed = false →
        stepL c Label.repl = some { c with repl := ReplThread.done }) ∧
      (∀ c1, Reach c c1 →
        c1.d.replicationState = ReplicationState.REPLICATION_FAILED) := by
  intro c hrf
  constructor
  · intro ok t hr hcr
    simp [stepL, hcr, replStep, hr, hrf]
  · intro c1 hreach
    induction hreach with
    | refl => exact hrf
    | tail _ hstep ih =>
        obtain ⟨l, hl⟩ := hstep
        exact replicationFailed_step hl ih

/-- A driver configuration whose replicate axis has already failed. -/
def failedCfg : Config :=
  { d := { hasOp := true, replicationState := .REPLICATION_FAILED,
           prepareState := .NOT_PREPARED, replicatedCalls := [],
           abortedCalls := 0, released := false, crashed := false },
    prep := .toPrepare true, repl := .notFired true 7, abortHF := [],
    applyOk := true }

theorem replication_failed_terminal_witness :
    failedCfg.d.replicationState = ReplicationState.REPLICATION_FAILED ∧
    ((∀ ok t, failedCfg.repl = ReplThread.notFired ok t →
        failedCfg.d.crashed = false →
        stepL failedCfg Label.repl =
          some { failedCfg with repl := ReplThread.done }) ∧
      (∀ c1, Reach failedCfg c1 →
        c1.d.replicationState = ReplicationState.REPLICATION_FAILED)) :=
  ⟨rfl, replication_failed_terminal failedCfg rfl⟩

/-- Claim C2: `HandleFailure` with a non-OK status is asymmetric on the
replicate axis: in `NOT_REPLICATING` / `REPLICATION_FAILED` it calls
`operation_->Aborted(status)` and releases from the tracker; in
`REPLICATING` / `REPLICATED` it is fatal and `Aborted` is never called. -/
theorem handleFailure_asymmetric :
    ∀ d : DriverData,
      ((d.replicationState = ReplicationState.NOT_REPLICATING ∨
        d.replicationState = ReplicationState.REPLICATION_FAILED) →
        HandleFailure false d =
          { d with abortedCalls := d.abortedCalls + 1, released := true }) ∧
      ((d.replicationState = ReplicationState.REPLICATING ∨
        d.replicationState = ReplicationState.REPLICATED) →
        HandleFailure false d = { d with crashed := true }) := by
  intro d
  constructor <;> rintro (h | h) <;> simp [HandleFailure, hfAct, h]

theorem handleFailure_asymmetric_witness :
    (({ hasOp := true, replicationState := .NOT_REPLICATING,
        prepareState := .NOT_PREPARED, replicatedCalls := [],
        abortedCalls := 0, released := false,
        crashed := false } : DriverData).replicationState =
          ReplicationState.NOT_REPLICATING ∨
      ({ hasOp := true, replicationState := .NOT_REPLICATING,
         prepareState := .NOT_PREPARED, replicatedCalls := [],
         abortedCalls := 0, released := false,
         crashed := false } : DriverData).replicationState =
           ReplicationState.REPLICATION_FAILED) ∧
    HandleFailure false
        { hasOp := true, replicationState := .NOT_REPLICATING,
          prepareState := .NOT_PREPARED, replicatedCalls := [],
          abortedCalls := 0, released := false, crashed := false } =
      { hasOp := true, replicationState := .NOT_REPLICATING,
        prepareState := .NOT_PREPARED, replicatedCalls := [],
        abortedCalls := 1, released := true, crashed := false } :=
  ⟨Or.inl rfl,
   (handleFailure_asymmetric
      { hasOp := true, replicationState := .NOT_REPLICATING,
        prepareState := .NOT_PREPARED, replicatedCalls := [],
        abortedCalls := 0, released := false, crashed := false }).1
     (Or.inl rfl)⟩

/-- Claim C3: `Abort` with a non-OK status on a driver in `REPLICATING` or
`REPLICATED` is a complete no-op (no `Aborted` call, no tracker release,
both axes unchanged); more generally it changes nothing unless the
replicate axis reads `NOT_REPLICATING`, in which case it runs the failure
path (`Aborted` plus release). -/
theorem abort_noop_once_replicating :
    ∀ d : DriverData,
      ((d.replicationState = ReplicationState.REPLICATING ∨
        d.replicationState = ReplicationState.REPLICATED) →
        Abort false d = d) ∧
      (d.replicationState ≠ ReplicationState.NOT_REPLICATING →
        Abort false d = d) ∧
      (d.replicationState = ReplicationState.NOT_REPLICATING →
        Abort false d =
          { d with abortedCalls := d.abortedCalls + 1, released := true }) := by
  intro d
  refine ⟨?_, ?_, ?_⟩
  · rintro (h | h) <;> simp [Abort, h]
  · intro h; simp [Abort, h]
  · intro h; simp [Abort, h, HandleFailure, hfAct]

theorem abort_noop_once_replicating_witness :
    (({ hasOp := true, replicationState := .REPLICATING,
        prepareState := .NOT_PREPARED, replicatedCalls := [],
        abortedCalls := 0, released := false,
        crashed := false } : DriverData).replicationState =
          ReplicationState.REPLICATING ∨
      ({ hasOp := true, replicationState := .REPLICATING,
         prepareState := .NOT_PREPARED, replicatedCalls := [],
         abortedCalls := 0, released := false,
         crashed := false } : DriverData).replicationState =
           ReplicationState.REPLICATED) ∧
    Abort false
        { hasOp := true, replicationState := .REPLICATING,
          prepareState := .NOT_PREPARED, replicatedCalls := [],
          abortedCalls := 0, released := false, crashed := false } =
      { hasOp := true, replicationState := .REPLICATING,
        prepareState := .NOT_PREPARED, replicatedCalls := [],
        abortedCalls := 0, released := false, crashed := false } :=
  ⟨Or.inl rfl,
   (abort_noop_once_replicating
      { hasOp := true, replicationState := .REPLICATING,
        prepareState := .NOT_PREPARED, replicatedCalls := [],
        abortedCalls := 0, released := false, crashed := false }).1
     (Or.inl rfl)⟩

/-- Claim C6 counterexample: `kSnapshot` maps to `SNAPSHOT_OP` on the
wire, but `CreateOperation` is fatal on `SNAPSHOT_OP`
(`FATAL_INVALID_ENUM_VALUE`) instead of building a snapshot operation, so
the mapping is not bijective over the five claimed types. -/
theorem opType_snapshot_roundtrip_fails :
    MapOperationTypeToPB OperationType.kSnapshot =
      some ConsensusOperationType.SNAPSHOT_OP ∧
    CreateOperation ConsensusOperationType.SNAPSHOT_OP = none ∧
    CreateOperation ConsensusOperationType.SNAPSHOT_OP ≠
      some OperationType.kSnapshot := by decide

/-- Claim C6 (amended): `MapOperationTypeToPB` is injective on the five
non-`Empty` types and fatal on `kEmpty`; `CreateOperation` inverts it on
`{Write, AlterSchema, UpdateTransaction, Truncate}`, while `SNAPSHOT_OP`
is fatal in `CreateOperation`. -/
theorem opType_mapping_injective_partial_roundtrip :
    (∀ a b : OperationType, a ≠ OperationType.kEmpty →
      b ≠ OperationType.kEmpty →
      MapOperationTypeToPB a = MapOperationTypeToPB b → a = b) ∧
    MapOperationTypeToPB OperationType.kEmpty = none ∧
    (∀ a : OperationType, a ≠ OperationType.kEmpty →
      a ≠ OperationType.kSnapshot →
      (MapOperationTypeToPB a).bind CreateOperation = some a) ∧
    (MapOperationTypeToPB OperationType.kSnapshot).bind CreateOperation =
      none := by decide

theorem opType_mapping_injective_partial_roundtrip_witness :
    OperationType.kWrite ≠ OperationType.kEmpty ∧
    OperationType.kWrite ≠ OperationType.kSnapshot ∧
    (MapOperationTypeToPB OperationType.kWrite).bind CreateOperation =
      some OperationType.kWrite :=
  ⟨by decide, by decide,
   opType_mapping_injective_partial_roundtrip.2.2.1 OperationType.kWrite
     (by decide) (by decide)⟩

/-- Claim C7 counterexample: `SetFailed` on a peer in `QUIESCING` records
the error but leaves the state `QUIESCING`; it does not transition to
`FAILED` as the claim asserts for every non-terminal state. -/
theorem setFailed_quiescing_stays :
    SetFailed StatusCode.IllegalState
        { state := TabletStatePB.QUIESCING, error := none } =
      { state := TabletStatePB.QUIESCING,
        error := some StatusCode.IllegalState } ∧
    (SetFailed StatusCode.IllegalState
        { state := TabletStatePB.QUIESCING, error := none }).state ≠
      TabletStatePB.FAILED := by decide

/-- Claim C7 (amended): `SetFailed` records the error always, and
transitions the state to `FAILED` exactly from `NOT_STARTED`,
`BOOTSTRAPPING` and `RUNNING`; from `QUIESCING`, `SHUTDOWN` and `FAILED`
the state is left unchanged. -/
theorem setFailed_transitions :
    ∀ (e : StatusCode) (p : PeerFailState),
      ((p.state = TabletStatePB.NOT_STARTED ∨
        p.state = TabletStatePB.BOOTSTRAPPING ∨
        p.state = TabletStatePB.RUNNING) →
        SetFailed e p = { state := TabletStatePB.FAILED, error := some e }) ∧
      ((p.state = TabletStatePB.QUIESCING ∨
        p.state = TabletStatePB.SHUTDOWN ∨
        p.state = TabletStatePB.FAILED) →
        SetFailed e p = { state := p.state, error := some e }) := by
  intro e p
  obtain ⟨s, err⟩ := p
  constructor <;> (rintro (h | h | h) <;> simp_all [SetFailed])

theorem setFailed_transitions_witness :
    (({ state := TabletStatePB.RUNNING, error := none } :
        PeerFailState).state = TabletStatePB.NOT_STARTED ∨
      ({ state := TabletStatePB.RUNNING, error := none } :
        PeerFailState).state = TabletStatePB.BOOTSTRAPPING ∨
      ({ state := TabletStatePB.RUNNING, error := none } :
        PeerFailState).state = TabletStatePB.RUNNING) ∧
    SetFailed StatusCode.Corruption
        { state := TabletStatePB.RUNNING, error := none } =
      { state := TabletStatePB.FAILED,
        error := some StatusCode.Corruption } :=
  ⟨Or.inr (Or.inr rfl),
   (setFailed_transitions StatusCode.Corruption
      { state := TabletStatePB.RUNNING, error := none }).1
     (Or.inr (Or.inr rfl))⟩

/-- `TabletPeer::CheckRunning`: `IllegalState` unless the peer state is
`RUNNING`. -/
def CheckRunning (state : TabletStatePB) : StatusCode :=
  if state = TabletStatePB.RUNNING then StatusCode.Ok
  else StatusCode.IllegalState

/-- Externally visible outcome of a leader submission path. -/
structure SubmitOutcome where
  /-- statuses passed to
  `state->completion_callback()->CompleteWithStatus(...)`, in order. -/
  callbackStatuses : List StatusCode
  /-- whether `driver->ExecuteAsync()` was reached. -/
  executedAsync : Bool
  /-- whether `operation->Finish(Operation::ABORTED)` ran. -/
  finishedAborted : Bool
  deriving DecidableEq, Repr

/-- `TabletPeer::Submit`: `CheckRunning`, then `NewLeaderOperationDriver`
(whose status — driver creation plus `Init` — is the input `driverInit`),
then `ExecuteAsync`; on any failure, `operation->Finish(ABORTED)` and one
`CompleteWithStatus(status)` with the failure status. -/
def Submit (state : TabletStatePB) (driverInit : StatusCode) : SubmitOutcome :=
  let status := CheckRunning state
  if status = StatusCode.Ok then
    if driverInit = StatusCode.Ok then
      { callbackStatuses := [], executedAsync := true, finishedAborted := false }
    else
      { callbackStatuses := [driverInit], executedAsync := false,
        finishedAborted := true }
  else
    { callbackStatuses := [status], executedAsync := false,
      finishedAborted := true }

/-- `TabletPeer::StartExecution`: no state check; on driver failure one
`CompleteWithStatus(status)` (no `Finish(ABORTED)`), otherwise
`ExecuteAsync`. -/
def StartExecution (driverInit : StatusCode) : SubmitOutcome :=
  if driverInit = StatusCode.Ok then
    { callbackStatuses := [], executedAsync := true, finishedAborted := false }
  else
    { callbackStatuses := [driverInit], executedAsync := false,
      finishedAborted := false }

/-- Externally visible outcome of `TabletPeer::WriteAsync`. -/
structure WriteAsyncOutcome where
  callbackStatuses : List StatusCode
  /-- whether `tablet_->AcquireLocksAndPerformDocOperations` was
  reached. -/
  acquiredDocLocks : Bool
  deriving DecidableEq, Repr

/-- `TabletPeer::WriteAsync`: `CheckRunning`; on failure one
`CompleteWithStatus(status)`, otherwise hand the write operation to the
tablet. -/
def WriteAsync (state : TabletStatePB) : WriteAsyncOutcome :=
  let status := CheckRunning state
  if status = StatusCode.Ok then
    { callbackStatuses := [], acquiredDocLocks := true }
  else
    { callbackStatuses := [status], acquiredDocLocks := false }

/-- Claim C8 counterexample: `Submit` on a `BOOTSTRAPPING` peer invokes
the completion callback once, but with the `IllegalState` status from
`CheckRunning` — not with an `Aborted` status as the claim states. -/
theorem submit_callback_not_aborted_status :
    Submit TabletStatePB.BOOTSTRAPPING StatusCode.Ok =
      { callbackStatuses := [StatusCode.IllegalState], executedAsync := false,
        finishedAborted := true } ∧
    StatusCode.IllegalState ≠ StatusCode.Aborted := by decide

/-- Claim C8 (amended): on `Submit`, `StartExecution` and `WriteAsync`,
any failure before `ExecuteAsync` (peer not `RUNNING`, or driver
creation/`Init` failing) invokes the completion callback exactly once with
the non-OK failure status itself, and `ExecuteAsync` (respectively the
tablet write path) is never reached; `Submit` additionally finishes the
operation as `ABORTED`. -/
theorem submission_failure_callback_once :
    ∀ (s : TabletStatePB) (driverInit : StatusCode),
      ((s ≠ TabletStatePB.RUNNING ∨ driverInit ≠ StatusCode.Ok) →
        (Submit s driverInit).executedAsync = false ∧
        (Submit s driverInit).finishedAborted = true ∧
        ∃ e, (Submit s driverInit).callbackStatuses = [e] ∧
          e ≠ StatusCode.Ok) ∧
      (driverInit ≠ StatusCode.Ok →
        (StartExecution driverInit).executedAsync = false ∧
        (StartExecution driverInit).callbackStatuses = [driverInit]) ∧
      (s ≠ TabletStatePB.RUNNING →
        (WriteAsync s).acquiredDocLocks = false ∧
        (WriteAsync s).callbackStatuses = [StatusCode.IllegalState]) := by
  decide

theorem submission_failure_callback_once_witness :
    (TabletStatePB.BOOTSTRAPPING ≠ TabletStatePB.RUNNING ∨
      StatusCode.Ok ≠ StatusCode.Ok) ∧
    ((Submit TabletStatePB.BOOTSTRAPPING StatusCode.Ok).executedAsync =
        false ∧
      (Submit TabletStatePB.BOOTSTRAPPING StatusCode.Ok).finishedAborted =
        true ∧
      ∃ e, (Submit TabletStatePB.BOOTSTRAPPING
          StatusCode.Ok).callbackStatuses = [e] ∧ e ≠ StatusCode.Ok) :=
  ⟨Or.inl (by decide),
   (submission_failure_callback_once TabletStatePB.BOOTSTRAPPING
      StatusCode.Ok).1 (Or.inl (by decide))⟩

/-- Claim C10: in follower mode (`term = kUnknownTerm`, non-null
operation), a tracker `Add` rejection makes `Init` return the failure,
move the operation back to the caller, and skip `AddedToFollower` — while
`op_id_copy_` was published before the `Add` attempt, so `GetOpId` on the
failed driver still returns the op id. -/
theorem init_follower_tracker_reject :
    ∀ (op : OpId) (e : StatusCode) (hc : Bool), e ≠ StatusCode.Ok →
      Init (some op) kUnknownTerm e hc =
        { d := { hasOp := false, opIdCopy := some op,
                 replicationState := ReplicationState.REPLICATING,
                 consensusRoundBound := false },
          result := e, operationReturnedToCaller := true,
          addedToFollowerCalled := false } ∧
      GetOpId (Init (some op) kUnknownTerm e hc).d = some op := by
  intro op e hc he
  simp [Init, GetOpId, he, kUnknownTerm]

theorem init_follower_tracker_reject_witness :
    StatusCode.ServiceUnavailable ≠ StatusCode.Ok ∧
    (Init (some { term := 5, index := 42 }) kUnknownTerm
        StatusCode.ServiceUnavailable true =
        { d := { hasOp := false, opIdCopy := some { term := 5, index := 42 },
                 replicationState := ReplicationState.REPLICATING,
                 consensusRoundBound := false },
          result := StatusCode.ServiceUnavailable,
          operationReturnedToCaller := true,
          addedToFollowerCalled := false } ∧
      GetOpId (Init (some { term := 5, index := 42 }) kUnknownTerm
          StatusCode.ServiceUnavailable true).d =
        some { term := 5, index := 42 }) :=
  ⟨by decide,
   init_follower_tracker_reject { term := 5, index := 42 }
     StatusCode.ServiceUnavailable true (by decide)⟩

/-- Result of `Tablet::MaxPersistentOpId`: the regular-RocksDB op id plus
the optional intents-RocksDB op id. -/
structure MaxPersistentOpIdResult where
  regular : OpId
  intents : Option OpId
  deriving DecidableEq, Repr

/-- Inputs read by `TabletPeer::GetEarliestNeededLogIndex` from its
collaborators (log, anchor registry, tracker, transaction coordinator,
tablet, consensus). -/
structure GcInput where
  /-- `log_->GetLatestEntryOpId().index`. -/
  latestEntryIndex : Int
  /-- `log_anchor_registry_->GetEarliestRegisteredLogIndex`: either the
  earliest anchor or a non-OK status (`NotFound` when none registered). -/
  anchorResult : Except StatusCode Int
  /-- `driver->GetOpId()` for each driver of
  `operation_tracker_.GetPendingOperations()`; `none` when the driver's
  op id is not yet initialized. -/
  pendingOpIds : List (Option OpId)
  /-- `transaction_coordinator()->PrepareGC()` when a coordinator
  exists. -/
  txnCoordinatorPrepareGc : Option Int
  /-- whether `tablet_->table_type() == TRANSACTION_STATUS_TABLE_TYPE`. -/
  isTransactionStatusTable : Bool
  /-- `tablet_->MaxPersistentOpId()` (a fallible `Result`). -/
  maxPersistentOpId : Except StatusCode MaxPersistentOpIdResult
  /-- `tablet_->last_committed_write_index()`. -/
  lastCommittedWriteIndex : Int
  /-- `consensus()->GetLastOpId(COMMITTED_OPID, ...)`. -/
  lastCommittedOpId : Except StatusCode OpId
  deriving Repr

/-- The tracker loop of `GetEarliestNeededLogIndex`: fold `min` over the
initialized op-id indexes of the pending drivers. -/
def minOverPendingOpIds (init : Int) (l : List (Option OpId)) : Int :=
  l.foldl
    (fun acc o =>
      match o with
      | some p => min acc p.index
      | none => acc)
    init

/-- `*min_index` after the anchor-registry check (a non-OK anchor lookup
is skipped; the source `DCHECK`s it is `NotFound`). -/
def gcMinAfterAnchors (input : GcInput) : Int :=
  match input.anchorResult with
  | .ok a => min input.latestEntryIndex a
  | .error _ => input.latestEntryIndex

/-- `*min_index` after the operation-tracker loop. -/
def gcMinAfterDrivers (input : GcInput) : Int :=
  minOverPendingOpIds (gcMinAfterAnchors input) input.pendingOpIds

/-- `*min_index` after the transaction-coordinator `PrepareGC` check. -/
def gcMinAfterTxnCoordinator (input : GcInput) : Int :=
  match input.txnCoordinatorPrepareGc with
  | some g => min (gcMinAfterDrivers input) g
  | none => gcMinAfterDrivers input

/-- `max_persistent_index` of `GetEarliestNeededLogIndex`: the regular
index, or the intents index when intents is set and less than regular. -/
def maxPersistentIndex (mp : MaxPersistentOpIdResult) : Int :=
  match mp.intents with
  | some i => if OpId.lt i mp.regular then i.index else mp.regular.index
  | none => mp.regular.index

/-- `*min_index` after the persistent-op-id check (skipped for
transaction-status tables; `MaxPersistentOpId` failure propagates; the
`min` applies only when there were writes after the last persistent
entry). -/
def gcMinAfterPersistent (input : GcInput) : Except StatusCode Int :=
  if input.isTransactionStatusTable then
    Except.ok (gcMinAfterTxnCoordinator input)
  else
    match input.maxPersistentOpId with
    | .error e => Except.error e
    | .ok mp =>
        if maxPersistentIndex mp < input.lastCommittedWriteIndex then
          Except.ok (min (gcMinAfterTxnCoordinator input)
            (maxPersistentIndex mp))
        else Except.ok (gcMinAfterTxnCoordinator input)

/-- `TabletPeer::GetEarliestNeededLogIndex`: anchor on the latest log
index; if the log was never written (index 0) return 0 immediately;
otherwise take the minimum with the anchors, the in-flight drivers'
published op ids, the coordinator's `PrepareGC`, the persistent-op-id
bound, and the committed op id (whose `NotFound` is skipped, any other
error propagates). -/
def GetEarliestNeededLogIndex (input : GcInput) : Except StatusCode Int :=
  if input.latestEntryIndex = 0 then Except.ok 0
  else
    match gcMinAfterPersistent input with
    | .error e => Except.error e
    | .ok m =>
        match input.lastCommittedOpId with
        | .ok cop => Except.ok (min m cop.index)
        | .error e =>
            if e = StatusCode.NotFound then Except.ok m
            else Except.error e

lemma minOverPendingOpIds_le_init (init : Int) (l : List (Option OpId)) :
    minOverPendingOpIds init l ≤ init := by
  induction l generalizing init with
  | nil => simp [minOverPendingOpIds]
  | cons o tl ih =>
      cases o with
      | none => simpa [minOverPendingOpIds] using ih init
      | some p =>
          have h1 := ih (min init p.index)
          simp only [minOverPendingOpIds, List.foldl_cons] at h1 ⊢
          exact le_trans h1 (min_le_left _ _)

lemma minOverPendingOpIds_le_mem {p : OpId} (init : Int)
    (l : List (Option OpId)) (hp : some p ∈ l) :
    minOverPendingOpIds init l ≤ p.index := by
  induction l generalizing init with
  | nil => cases hp
  | cons o tl ih =>
      rcases List.mem_cons.mp hp with heq | hmem
      · subst heq
        have h1 := minOverPendingOpIds_le_init (min init p.index) tl
        simp only [minOverPendingOpIds, List.foldl_cons] at h1 ⊢
        exact le_trans h1 (min_le_right _ _)
      · cases o with
        | none =>
            simp only [minOverPendingOpIds, List.foldl_cons]
            exact ih init hmem
        | some q =>
            simp only [minOverPendingOpIds, List.foldl_cons]
            exact ih (min init q.index) hmem

lemma gcMinAfterTxnCoordinator_le_drivers (input : GcInput) :
    gcMinAfterTxnCoordinator input ≤ gcMinAfterDrivers input := by
  unfold gcMinAfterTxnCoordinator
  cases input.txnCoordinatorPrepareGc <;> simp

lemma gcMinAfterPersistent_le {input : GcInput} {m : Int}
    (h : gcMinAfterPersistent input = Except.ok m) :
    m ≤ gcMinAfterTxnCoordinator input := by
  unfold gcMinAfterPersistent at h
  split at h
  · simp only [Except.ok.injEq] at h; subst h; exact le_refl _
  · split at h
    · simp at h
    · split at h <;> (simp only [Except.ok.injEq] at h; subst h; simp)

/-- Claim C5: `GetEarliestNeededLogIndex` returns 0 immediately when the
log was never written (latest index 0); otherwise every successfully
returned value is at most the op-id index of any in-flight driver whose
op id has been published. -/
theorem earliestNeededLogIndex_bounds :
    ∀ input : GcInput,
      (input.latestEntryIndex = 0 →
        GetEarliestNeededLogIndex input = Except.ok 0) ∧
      (input.latestEntryIndex ≠ 0 →
        ∀ v, GetEarliestNeededLogIndex input = Except.ok v →
          ∀ p : OpId, some p ∈ input.pendingOpIds → v ≤ p.index) := by
  intro input
  constructor
  · intro h0
    simp [GetEarliestNeededLogIndex, h0]
  · intro hne v hv p hp
    have hdrv : gcMinAfterDrivers input ≤ p.index :=
      minOverPendingOpIds_le_mem _ _ hp
    have htx := gcMinAfterTxnCoordinator_le_drivers input
    unfold GetEarliestNeededLogIndex at hv
    rw [if_neg hne] at hv
    cases hpers : gcMinAfterPersistent input with
    | error e => simp [hpers] at hv
    | ok m =>
        simp only [hpers] at hv
        have hm : m ≤ p.index :=
          le_trans (gcMinAfterPersistent_le hpers) (le_trans htx hdrv)
        cases hcop : input.lastCommittedOpId with
        | ok cop =>
            simp only [hcop, Except.ok.injEq] at hv
            subst hv
            exact le_trans (min_le_left _ _) hm
        | error e =>
            simp only [hcop] at hv
            split at hv
            · simp only [Except.ok.injEq] at hv; subst hv; exact hm
            · simp at hv

theorem earliestNeededLogIndex_bounds_witness :
    ((⟨7, Except.error StatusCode.NotFound,
        [some { term := 1, index := 4 }, none], none, false,
        Except.ok { regular := { term := 1, index := 7 }, intents := none },
        0, Except.ok { term := 1, index := 6 }⟩ :
        GcInput).latestEntryIndex ≠ 0) ∧
    GetEarliestNeededLogIndex
        ⟨7, Except.error StatusCode.NotFound,
          [some { term := 1, index := 4 }, none], none, false,
          Except.ok { regular := { term := 1, index := 7 }, intents := none },
          0, Except.ok { term := 1, index := 6 }⟩ = Except.ok 4 ∧
    (4 : Int) ≤ ({ term := 1, index := 4 } : OpId).index :=
  ⟨by decide, by rfl,
   (earliestNeededLogIndex_bounds
      ⟨7, Except.error StatusCode.NotFound,
        [some { term := 1, index := 4 }, none], none, false,
        Except.ok { regular := { term := 1, index := 7 }, intents := none },
        0, Except.ok { term := 1, index := 6 }⟩).2 (by decide) 4 (by rfl)
     { term := 1, index := 4 } (by simp)⟩

/-- Steps of the shutdown sequence, in the order `StartShutdown` and
`CompleteShutdown` perform them. -/
inductive ShutdownAction where
  | unregisterMaintenanceOps
  | consensusShutdown
  | waitForAllToFinish
  | preparerStop
  | logClose
  | tabletShutdown
  | markShutdown
  deriving DecidableEq, Repr

/-- Peer state touched by the shutdown protocol.  The `has...` flags model
the nullable component pointers. -/
structure PeerLifecycle where
  state : TabletStatePB
  /-- `tablet_ != nullptr`. -/
  hasTablet : Bool
  /-- the tablet's shutdown-requested flag. -/
  shutdownRequested : Bool
  /-- `consensus_ != nullptr`. -/
  hasConsensus : Bool
  /-- `prepare_thread_ != nullptr`. -/
  hasPreparer : Bool
  /-- `log_ != nullptr`. -/
  hasLog : Bool
  /-- op ids of the drivers in `operation_tracker_`. -/
  trackerPending : List OpId
  deriving DecidableEq, Repr

/-- `TabletPeer::StartShutdown`: set the tablet's shutdown-requested flag,
CAS the state to `QUIESCING` (returning `false` if already `QUIESCING` or
`SHUTDOWN`), then unregister maintenance ops and shut down consensus.
Returns the new state, whether this caller owns the shutdown, and the
actions performed. -/
def StartShutdown (p : PeerLifecycle) :
    PeerLifecycle × Bool × List ShutdownAction :=
  let p1 := if p.hasTablet then { p with shutdownRequested := true } else p
  if p1.state = TabletStatePB.QUIESCING ∨
      p1.state = TabletStatePB.SHUTDOWN then
    (p1, false, [])
  else
    let p2 := { p1 with state := TabletStatePB.QUIESCING }
    (p2, true,
     ShutdownAction.unregisterMaintenanceOps ::
       (if p2.hasConsensus then [ShutdownAction.consensusShutdown] else []))

/-- `TabletPeer::CompleteShutdown`: wait for the tracker to drain, stop
the preparer, close the log, shut down the tablet, then drop the
component references and mark the state `SHUTDOWN`.

Modelled from the spec: the `OperationTracker` implementation is not part
of this slice; per the spec `WaitForAllToFinish` blocks until the
tracker's pending set is empty, so its post-state has no pending
operations. -/
def CompleteShutdown (p : PeerLifecycle) :
    PeerLifecycle × List ShutdownAction :=
  ({ p with trackerPending := [], hasConsensus := false,
            hasPreparer := false, hasTablet := false,
            state := TabletStatePB.SHUTDOWN },
   ShutdownAction.waitForAllToFinish ::
     ((if p.hasPreparer then [ShutdownAction.preparerStop] else []) ++
      (if p.hasLog then [ShutdownAction.logClose] else []) ++
      (if p.hasTablet then [ShutdownAction.tabletShutdown] else []) ++
      [ShutdownAction.markShutdown]))

/-- `TabletPeer::WaitUntilShutdown` in the sequential model: the poll loop
returns (with no effects) only once the state reads `SHUTDOWN`; with no
other thread to move the state there is no way for it to return earlier.

Modelled from the spec: the loop sleeps until `state_ == SHUTDOWN`. -/
def WaitUntilShutdown (p : PeerLifecycle) : Option PeerLifecycle :=
  if p.state = TabletStatePB.SHUTDOWN then some p else none

/-- `TabletPeer::Shutdown`: the caller that wins `StartShutdown` runs
`CompleteShutdown`; any other caller waits for `SHUTDOWN` to be
observed.  The returned list is the sequence of shutdown actions this
caller performed. -/
def Shutdown (p : PeerLifecycle) :
    Option (PeerLifecycle × List ShutdownAction) :=
  let r := StartShutdown p
  if r.2.1 then
    let rc := CompleteShutdown r.1
    some (rc.1, r.2.2 ++ rc.2)
  else
    match WaitUntilShutdown r.1 with
    | some p2 => some (p2, [])
    | none => none

/-- Claim C9: `Shutdown` is idempotent and drains in order: the first
caller (state neither `QUIESCING` nor `SHUTDOWN`) goes through
`QUIESCING` and performs exactly the ordered sequence — unregister
maintenance ops, consensus shutdown, tracker drain, preparer stop, log
close, tablet shutdown, mark `SHUTDOWN`; a caller that finds `SHUTDOWN`
performs none of these actions; a caller that finds `QUIESCING` cannot
return before `SHUTDOWN` is observed; and whenever `Shutdown` returns the
tracker's pending set is empty. -/
theorem shutdown_idempotent_ordered_drain :
    ∀ p : PeerLifecycle,
      (p.state ≠ TabletStatePB.QUIESCING → p.state ≠ TabletStatePB.SHUTDOWN →
        p.hasConsensus = true → p.hasPreparer = true → p.hasLog = true →
        p.hasTablet = true →
        Shutdown p = some
          ({ p with shutdownRequested := true, trackerPending := [],
                    hasConsensus := false, hasPreparer := false,
                    hasTablet := false, state := TabletStatePB.SHUTDOWN },
           [ShutdownAction.unregisterMaintenanceOps,
            ShutdownAction.consensusShutdown,
            ShutdownAction.waitForAllToFinish,
            ShutdownAction.preparerStop,
            ShutdownAction.logClose,
            ShutdownAction.tabletShutdown,
            ShutdownAction.markShutdown])) ∧
      (p.state = TabletStatePB.SHUTDOWN →
        ∃ p1, Shutdown p = some (p1, []) ∧
          p1.state = TabletStatePB.SHUTDOWN ∧
          p1.trackerPending = p.trackerPending) ∧
      (p.state = TabletStatePB.QUIESCING → Shutdown p = none) ∧
      (∀ p1 acts, Shutdown p = some (p1, acts) →
        (p.state = TabletStatePB.SHUTDOWN → p.trackerPending = []) →
        p1.trackerPending = []) := by
  intro p
  refine ⟨?_, ?_, ?_, ?_⟩
  · intro hq hs hc hpr hl ht
    simp [Shutdown, StartShutdown, CompleteShutdown, hq, hs, hc, hpr, hl, ht]
  · intro hs
    cases hht : p.hasTablet with
    | true =>
        refine ⟨{ p with shutdownRequested := true }, ?_, hs, rfl⟩
        simp [Shutdown, StartShutdown, WaitUntilShutdown, hs, hht]
    | false =>
        refine ⟨p, ?_, hs, rfl⟩
        simp [Shutdown, StartShutdown, WaitUntilShutdown, hs, hht]
  · intro hq
    cases hht : p.hasTablet with
    | true => simp [Shutdown, StartShutdown, WaitUntilShutdown, hq, hht]
    | false => simp [Shutdown, StartShutdown, WaitUntilShutdown, hq, hht]
  · intro p1 acts hres hwf
    by_cases hs : p.state = TabletStatePB.SHUTDOWN
    · cases hht : p.hasTablet with
      | true =>
          simp [Shutdown, StartShutdown, WaitUntilShutdown, hs, hht] at hres
          rw [← hres.1]
          exact hwf hs
      | false =>
          simp [Shutdown, StartShutdown, WaitUntilShutdown, hs, hht] at hres
          rw [← hres.1]
          exact hwf hs
    · by_cases hq : p.state = TabletStatePB.QUIESCING
      · cases hht : p.hasTablet with
        | true =>
            simp [Shutdown, StartShutdown, WaitUntilShutdown, hq, hs, hht]
              at hres
        | false =>
            simp [Shutdown, StartShutdown, WaitUntilShutdown, hq, hs, hht]
              at hres
      · cases hht : p.hasTablet with
        | true =>
            simp [Shutdown, StartShutdown, CompleteShutdown, hq, hs, hht]
              at hres
            rw [← hres.1]
        | false =>
            simp [Shutdown, StartShutdown, CompleteShutdown, hq, hs, hht]
              at hres
            rw [← hres.1]

/-- A fully initialized running peer with one in-flight operation. -/
def runningPeer : PeerLifecycle :=
  { state := .RUNNING, hasTablet := true, shutdownRequested := false,
    hasConsensus := true, hasPreparer := true, hasLog := true,
    trackerPending := [{ term := 1, index := 3 }] }

theorem shutdown_idempotent_ordered_drain_witness :
    runningPeer.state ≠ TabletStatePB.QUIESCING ∧
    runningPeer.state ≠ TabletStatePB.SHUTDOWN ∧
    Shutdown runningPeer = some
      ({ runningPeer with shutdownRequested := true, trackerPending := [],
                          hasConsensus := false, hasPreparer := false,
                          hasTablet := false,
                          state := TabletStatePB.SHUTDOWN },
       [ShutdownAction.unregisterMaintenanceOps,
        ShutdownAction.consensusShutdown,
        ShutdownAction.waitForAllToFinish,
        ShutdownAction.preparerStop,
        ShutdownAction.logClose,
        ShutdownAction.tabletShutdown,
        ShutdownAction.markShutdown]) :=
  ⟨by decide, by decide,
   (shutdown_idempotent_ordered_drain runningPeer).1 (by decide) (by decide)
     rfl rfl rfl rfl⟩

end YBTablet
